import Mathlib

/-!
Verification of the fail2ban SMTP notification action
(config/action.d/smtp.py).

The development shallowly embeds the module: the template dictionary
(lines 27-69), the composition performed by SMTPAction.start, SMTPAction.stop
and SMTPAction.ban (lines 189-223), and the transport flow of
SMTPAction._sendMessage (lines 129-187).

Python percent-interpolation is modelled over parsed templates (literal
pieces, string placeholders, integer placeholders); a dict is a function
from keys to optional values, and dict.update layers the second mapping
over the first.  Transport behaviour of the smtplib session is abstracted
as an oracle giving each primitive (connect, login, sendmail, quit) an
outcome: a return value, or one of the exception classes the module
handles.  Exceptions are threaded explicitly; the try/except/else/finally
structure of the Python code is mirrored by the control flow of
sendMessage below.
-/

/-- Python values that occur in the interpolation dicts of this module:
strings and integers. -/
inductive PyVal where
  | str : String → PyVal
  | int : Int → PyVal
deriving DecidableEq, Repr

/-- One piece of a parsed Python percent-format template: a literal run of
text, a string placeholder (percent, key, letter s), or an integer
placeholder (percent, key, letter i). -/
inductive Piece where
  | lit : String → Piece
  | phS : String → Piece
  | phI : String → Piece
deriving DecidableEq, Repr

/-- A template is the parsed form of one of the Python format strings. -/
abbrev Template := List Piece

/-- A Python dict used for interpolation: keys to optional values. -/
abbrev PyDict := String → Option PyVal

/-- Conversion applied by a string placeholder: Python str of the value. -/
def fmtS : PyVal → String
  | PyVal.str s => s
  | PyVal.int n => toString n

/-- Conversion applied by an integer placeholder: Python rejects a
non-numeric value there with a TypeError, modelled as none. -/
def fmtI : PyVal → Option String
  | PyVal.str _ => none
  | PyVal.int n => some (toString n)

/-- Interpolation of one piece: a literal passes through, a placeholder
looks its key up in the dict (a missing key is a KeyError, modelled as
none) and converts the value. -/
def interpPiece (m : PyDict) : Piece → Option String
  | Piece.lit s => some s
  | Piece.phS k => (m k).map fmtS
  | Piece.phI k => (m k).bind fmtI

/-- Python percent-interpolation of a whole template against a dict.
Every placeholder is substituted; any failure (missing key, wrong type)
aborts the whole interpolation, exactly as the Python operator raises. -/
def interpolate (m : PyDict) : Template → Option String
  | [] => some ""
  | p :: ps =>
    match interpPiece m p, interpolate m ps with
    | some s, some r => some (s ++ r)
    | _, _ => none

/-- Template of messages, key start (smtp.py lines 28-34). -/
def messages_start : Template :=
  [Piece.lit "Hi,\n\nThe jail ", Piece.phS "jailname",
   Piece.lit " has been started successfully.\n\nRegards,\nFail2Ban"]

/-- Template of messages, key stop (smtp.py lines 36-42). -/
def messages_stop : Template :=
  [Piece.lit "Hi,\n\nThe jail ", Piece.phS "jailname",
   Piece.lit " has been stopped.\n\nRegards,\nFail2Ban"]

/-- Template of messages, key ban, sub-key head (smtp.py lines 45-50). -/
def messages_ban_head : Template :=
  [Piece.lit "Hi,\n\nThe IP ", Piece.phS "ip",
   Piece.lit " has just been banned for ", Piece.phI "bantime",
   Piece.lit " seconds\nby Fail2Ban after ", Piece.phI "failures",
   Piece.lit " attempts against ", Piece.phS "jailname", Piece.lit ".\n"]

/-- Template of messages, key ban, sub-key tail (smtp.py lines 51-54). -/
def messages_ban_tail : Template :=
  [Piece.lit "\nRegards,\nFail2Ban"]

/-- Template of messages, key ban, sub-key matches (smtp.py lines 55-59). -/
def messages_ban_matches : Template :=
  [Piece.lit "\nMatches for this ban:\n", Piece.phS "matches", Piece.lit "\n"]

/-- Template of messages, key ban, sub-key ipmatches (smtp.py lines 60-64). -/
def messages_ban_ipmatches : Template :=
  [Piece.lit "\nMatches for ", Piece.phS "ip", Piece.lit ":\n",
   Piece.phS "ipmatches", Piece.lit "\n"]

/-- Template of messages, key ban, sub-key ipjailmatches
(smtp.py lines 65-69). -/
def messages_ban_ipjailmatches : Template :=
  [Piece.lit "\nMatches for ", Piece.phS "ip", Piece.lit " for jail ",
   Piece.phS "jailname", Piece.lit ":\n", Piece.phS "ipjailmatches",
   Piece.lit "\n"]

/-- The middle-section lookup performed by SMTPAction.ban, line 217:
the get method of the ban sub-dictionary with default empty string.  The
dictionary holds the keys head, tail, matches, ipmatches and
ipjailmatches, so those five strings hit and every other value of the
matches option (including None) yields the empty template. -/
def messages_ban_get : Option String → Template
  | none => []
  | some s =>
    if s = "head" then messages_ban_head
    else if s = "tail" then messages_ban_tail
    else if s = "matches" then messages_ban_matches
    else if s = "ipmatches" then messages_ban_ipmatches
    else if s = "ipjailmatches" then messages_ban_ipjailmatches
    else []

/-- Current values of the dynamic accessors backing the context mapping:
socket.gethostname and the getBanTime accessor of the jail.  A World is
the pair of values those calls return at one instant. -/
structure World where
  hostname : String
  bantime : Int
deriving DecidableEq, Repr

/-- Modelled from the spec: CallingMap (imported from
fail2ban.server.actions, which is not part of src/) maps each key to a
constant or a zero-argument accessor and invokes the accessor at every
access, never caching the result.  The keys and their backing come from
SMTPAction.__init__, lines 123-127: jailname is the static jail name,
hostname calls socket.gethostname, bantime calls the getBanTime accessor.
Reading the mapping at an instant whose accessor values are w therefore
gives this dict. -/
def message_values (jailname : String) (w : World) : PyDict := fun k =>
  if k = "jailname" then some (PyVal.str jailname)
  else if k = "hostname" then some (PyVal.str w.hostname)
  else if k = "bantime" then some (PyVal.int w.bantime)
  else none

/-- Python dict.update d m mutates d so that every key of m now maps to
the value of m and every other key keeps its value; this is the resulting
lookup function. -/
def dictUpdate (d m : PyDict) : PyDict := fun k =>
  match m k with
  | some v => some v
  | none => d k

/-- Configuration of one SMTPAction instance, the fields set by __init__
(smtp.py lines 109-121) together with the name of the owning jail. -/
structure SMTPConfig where
  host : String
  user : Option String
  password : Option String
  fromname : String
  fromaddr : String
  toaddr : String
  «matches» : Option String
  jailname : String

/-- Subject format string of SMTPAction.ban, line 221. -/
def subject_ban : Template :=
  [Piece.lit "[Fail2Ban] ", Piece.phS "jailname", Piece.lit ": banned ",
   Piece.phS "ip", Piece.lit " from ", Piece.phS "hostname"]

/-- Subject format string of SMTPAction.start, line 193. -/
def subject_start : Template :=
  [Piece.lit "[Fail2Ban] ", Piece.phS "jailname", Piece.lit ": started on ",
   Piece.phS "hostname"]

/-- Subject format string of SMTPAction.stop, line 201. -/
def subject_stop : Template :=
  [Piece.lit "[Fail2Ban] ", Piece.phS "jailname", Piece.lit ": stopped on ",
   Piece.phS "hostname"]

/-- Outcome of the composition phase of SMTPAction.ban: the caller dict
after the in-place update of line 214, and the interpolated subject and
body handed to _sendMessage on lines 220-223. -/
structure BanResult where
  aInfo : PyDict
  subject : Option String
  body : Option String

/-- Composition phase of SMTPAction.ban (smtp.py lines 205-223): update
the caller dict aInfo in place with the context mapping, join head,
selected middle section and tail into one template, then interpolate the
subject format and the joined template against the updated dict. -/
def composeBan (cfg : SMTPConfig) (w : World) (aInfo : PyDict) : BanResult :=
  let aInfo2 := dictUpdate aInfo (message_values cfg.jailname w)
  let message := messages_ban_head ++ messages_ban_get cfg.«matches» ++ messages_ban_tail
  { aInfo := aInfo2
    subject := interpolate aInfo2 subject_ban
    body := interpolate aInfo2 message }

/-- Composition phase of SMTPAction.start (smtp.py lines 189-195):
subject and body interpolated against the context mapping read at the
instant w. -/
def composeStart (cfg : SMTPConfig) (w : World) : Option String × Option String :=
  (interpolate (message_values cfg.jailname w) subject_start,
   interpolate (message_values cfg.jailname w) messages_start)

/-- Composition phase of SMTPAction.stop (smtp.py lines 197-203). -/
def composeStop (cfg : SMTPConfig) (w : World) : Option String × Option String :=
  (interpolate (message_values cfg.jailname w) subject_stop,
   interpolate (message_values cfg.jailname w) messages_stop)

/-- Exception classes of smtplib that the module distinguishes:
SMTPConnectError, SMTPAuthenticationError, SMTPServerDisconnected, and
any other SMTPException.  Every one of them is a subclass of
SMTPException, which matters for the order of the except clauses. -/
inductive SMTPExc where
  | connectError
  | authError
  | serverDisconnected
  | otherSMTP
deriving DecidableEq, Repr

/-- Outcome of one call into the smtplib session: a returned value, or a
raised exception. -/
inductive StepResult (α : Type) where
  | ok : α → StepResult α
  | exc : SMTPExc → StepResult α
deriving DecidableEq, Repr

/-- Oracle fixing what the smtplib session does on this call: the outcome
of connect (a response code and message), of login, of sendmail (the
addresses the relay refused), and of quit.  The transport library is an
external collaborator, so its behaviour is a parameter of the model. -/
structure SMTPBehavior where
  connect : StepResult (Int × String)
  login : StepResult Unit
  sendmail : StepResult (List String)
  quit : StepResult (Int × String)
deriving DecidableEq, Repr

/-- Log lines issued by _sendMessage, one constructor per logging call in
smtp.py lines 157-187, carrying the arguments the code passes. -/
inductive LogEntry where
  | debugConnected (host : String) (code : Int) (resp : String)
  | errorConnect (host : String)
  | errorAuth (host : String) (user : Option String)
  | errorSend (host : String) (fromaddr : String) (toaddr : String)
  | warnFailed (toaddr : String) (failed : List String)
  | debugSent (subject : String)
  | debugDisconnected (host : String) (code : Int) (resp : String)
deriving DecidableEq, Repr

/-- Python truthiness of the optional user and password strings: None and
the empty string are falsy, every other string is truthy. -/
def truthy : Option String → Bool
  | none => false
  | some s => !(s == "")

/-- Splitter for the recipient string: Python str.split with the
two-character separator comma-space, scanning left to right without
overlap.  The accumulator holds the current field reversed. -/
def splitCommaSpace : List Char → List Char → List (List Char)
  | ',' :: ' ' :: rest, acc => acc.reverse :: splitCommaSpace rest []
  | c :: rest, acc => splitCommaSpace rest (c :: acc)
  | [], acc => [acc.reverse]

/-- The recipient list handed to sendmail on line 162:
self.toaddr.split on comma-space. -/
def pySplitCommaSpace (s : String) : List String :=
  (splitCommaSpace s.data []).map (fun l => String.mk l)

/-- Log lines of the except clauses (smtp.py lines 163-175).  Dispatch is
by exception class exactly as Python matches the clauses in order:
SMTPConnectError first, SMTPAuthenticationError second, any remaining
SMTPException (including SMTPServerDisconnected) third. -/
def handlerLog (cfg : SMTPConfig) : SMTPExc → List LogEntry
  | SMTPExc.connectError => [LogEntry.errorConnect cfg.host]
  | SMTPExc.authError => [LogEntry.errorAuth cfg.host cfg.user]
  | _ => [LogEntry.errorSend cfg.host cfg.fromaddr cfg.toaddr]

/-- Decidable equality for Except, needed to derive it for the outcome
records below. -/
instance {ε α : Type} [DecidableEq ε] [DecidableEq α] :
    DecidableEq (Except ε α) := fun x y =>
  match x, y with
  | Except.ok a, Except.ok b =>
    if h : a = b then isTrue (by rw [h])
    else isFalse (by intro hh; injection hh; contradiction)
  | Except.error a, Except.error b =>
    if h : a = b then isTrue (by rw [h])
    else isFalse (by intro hh; injection hh; contradiction)
  | Except.ok _, Except.error _ => isFalse (fun hh => Except.noConfusion hh)
  | Except.error _, Except.ok _ => isFalse (fun hh => Except.noConfusion hh)

/-- Outcome of the try/except/else part of _sendMessage: the pending
result when control reaches the finally block (normal completion, or an
exception about to propagate), the log so far, whether login was invoked,
and the recipient list passed to sendmail when that call was reached. -/
structure BodyOutcome where
  result : Except SMTPExc Unit
  log : List LogEntry
  loginAttempted : Bool
  sentTo : Option (List String)
deriving DecidableEq, Repr

/-- The try/except/else part of _sendMessage (smtp.py lines 156-181):
connect, then login only when both user and password are truthy, then
sendmail on the split recipient list; an exception from any step is
logged by the matching except clause and re-raised; on the else path a
non-empty refused list is logged as a warning and the successful send is
logged at debug level. -/
def sendBody (cfg : SMTPConfig) (subject : String) (b : SMTPBehavior) :
    BodyOutcome :=
  match b.connect with
  | StepResult.exc e =>
    { result := Except.error e, log := handlerLog cfg e,
      loginAttempted := false, sentTo := none }
  | StepResult.ok cr =>
    let log0 := [LogEntry.debugConnected cfg.host cr.1 cr.2]
    let doLogin := truthy cfg.user && truthy cfg.password
    let loginRes : StepResult Unit :=
      if doLogin then b.login else StepResult.ok ()
    match loginRes with
    | StepResult.exc e =>
      { result := Except.error e, log := log0 ++ handlerLog cfg e,
        loginAttempted := doLogin, sentTo := none }
    | StepResult.ok _ =>
      let rcpts := pySplitCommaSpace cfg.toaddr
      match b.sendmail with
      | StepResult.exc e =>
        { result := Except.error e, log := log0 ++ handlerLog cfg e,
          loginAttempted := doLogin, sentTo := some rcpts }
      | StepResult.ok failed =>
        let warnLog :=
          if failed.isEmpty then []
          else [LogEntry.warnFailed cfg.toaddr failed]
        { result := Except.ok (),
          log := log0 ++ warnLog ++ [LogEntry.debugSent subject],
          loginAttempted := doLogin, sentTo := some rcpts }

/-- Overall outcome of _sendMessage: the value the call produces for the
caller (ok with the Python return value, which the function leaves at
None on every normal path, or a propagating exception), the log, and
which steps were reached.  quitAttempted records that the finally block
ran its quit call. -/
structure SendOutcome where
  result : Except SMTPExc (Option (List String))
  log : List LogEntry
  loginAttempted : Bool
  sentTo : Option (List String)
  quitAttempted : Bool
deriving DecidableEq, Repr

/-- Whole of _sendMessage (smtp.py lines 129-187): run the
try/except/else part, then the finally block always calls quit.  A clean
quit adds a debug log line and leaves the pending result alone; a quit
raising SMTPServerDisconnected is swallowed by the inner except and the
pending result goes through; any other exception from quit propagates in
its place, as an exception raised inside a finally block replaces the
pending outcome in Python. -/
def sendMessage (cfg : SMTPConfig) (subject : String) (b : SMTPBehavior) :
    SendOutcome :=
  let bo := sendBody cfg subject b
  let pyRes : Except SMTPExc (Option (List String)) :=
    bo.result.map (fun _ => none)
  match b.quit with
  | StepResult.ok qr =>
    { result := pyRes,
      log := bo.log ++ [LogEntry.debugDisconnected cfg.host qr.1 qr.2],
      loginAttempted := bo.loginAttempted, sentTo := bo.sentTo,
      quitAttempted := true }
  | StepResult.exc SMTPExc.serverDisconnected =>
    { result := pyRes, log := bo.log,
      loginAttempted := bo.loginAttempted, sentTo := bo.sentTo,
      quitAttempted := true }
  | StepResult.exc e =>
    { result := Except.error e, log := bo.log,
      loginAttempted := bo.loginAttempted, sentTo := bo.sentTo,
      quitAttempted := true }

/-- Left cancellation for string concatenation, via the underlying
character lists. -/
theorem str_append_cancel_left (s a b : String) (h : s ++ a = s ++ b) :
    a = b := by
  have h2 := congrArg String.data h
  simp only [String.data_append] at h2
  have h3 := List.append_cancel_left h2
  cases a
  cases b
  exact congrArg String.mk h3

/-- Interpolation distributes over template concatenation: interpolating
a joined template equals interpolating the two parts and concatenating
the results, with failure of either part failing the whole. -/
theorem interpolate_append (m : PyDict) (a b : Template) :
    interpolate m (a ++ b) =
      (interpolate m a).bind
        (fun s => (interpolate m b).map (fun t => s ++ t)) := by
  induction a with
  | nil =>
    cases hb : interpolate m b <;>
      simp [interpolate, hb, String.empty_append]
  | cons p ps ih =>
    cases hp : interpPiece m p <;>
      cases ha : interpolate m ps <;>
      cases hb : interpolate m b <;>
      simp [interpolate, hp, ha, hb, ih, String.append_assoc]

/-- Fixture: a configuration with the module defaults for sender and
recipients, no credentials, no match mode, jail name ssh. -/
def cfg0 : SMTPConfig :=
  { host := "mail.example.com", user := none, password := none,
    fromname := "Fail2Ban", fromaddr := "fail2ban", toaddr := "root",
    «matches» := none, jailname := "ssh" }

/-- Fixture: accessor values at one instant. -/
def w0 : World := { hostname := "srv1", bantime := 600 }

/-- Fixture: accessor values at a later instant, both changed. -/
def wAlt : World := { hostname := "srv2", bantime := 300 }

/-- Fixture: a ban event dict carrying the two keys the caller must
supply, an address and an attempt count. -/
def aInfo0 : PyDict := fun k =>
  if k = "ip" then some (PyVal.str "192.0.2.1")
  else if k = "failures" then some (PyVal.int 3)
  else none

/-- Middle-section selection exactly as claim C1 words it: the matches,
ipmatches and ipjailmatches templates for those three modes, the empty
template for any unset or unrecognized mode.  Stated for comparison with
messages_ban_get, the lookup the code actually performs; the two differ
on the literal mode strings head and tail. -/
def claimBanMiddle : Option String → Template
  | some "matches" => messages_ban_matches
  | some "ipmatches" => messages_ban_ipmatches
  | some "ipjailmatches" => messages_ban_ipjailmatches
  | _ => []

/-- C1, counterexample: with the match mode configured as the string
tail, the claim calls the mode unrecognized and demands the empty middle
section, but the code looks the string up in the same dictionary that
holds the head and tail templates, so the body gains a second copy of the
tail.  At this concrete input the produced body differs from the body the
claim describes. -/
theorem c1_counterexample :
    (composeBan { cfg0 with «matches» := some "tail" } w0 aInfo0).body ≠
      interpolate (dictUpdate aInfo0 (message_values cfg0.jailname w0))
        (messages_ban_head ++ claimBanMiddle (some "tail") ++ messages_ban_tail)
    ∧ claimBanMiddle (some "tail") = []
    ∧ messages_ban_get (some "tail") = messages_ban_tail := by
  refine ⟨by decide, by decide, by decide⟩

/-- C1 (amended): for every configured matchMode, composeBan produces a
body equal to the ban head template, followed by exactly one middle
section selected by matchMode (the matches, ipmatches or ipjailmatches
template for those modes; the head or tail template for the literal mode
strings head and tail, which also occur as keys of the ban template
dictionary; the empty string for any other unset or unrecognized mode),
followed by the ban tail template, all interpolated against the merged
event and context dict, a failure of any part failing the whole body. -/
theorem c1_ban_body_structure (cfg : SMTPConfig) (w : World) (aInfo : PyDict) :
    (composeBan cfg w aInfo).body =
      (interpolate (dictUpdate aInfo (message_values cfg.jailname w))
          messages_ban_head).bind
        (fun h =>
          (interpolate (dictUpdate aInfo (message_values cfg.jailname w))
              (messages_ban_get cfg.«matches»)).bind
            (fun mid =>
              (interpolate (dictUpdate aInfo (message_values cfg.jailname w))
                  messages_ban_tail).map
                (fun t => h ++ mid ++ t)))
    ∧ messages_ban_get none = []
    ∧ messages_ban_get (some "matches") = messages_ban_matches
    ∧ messages_ban_get (some "ipmatches") = messages_ban_ipmatches
    ∧ messages_ban_get (some "ipjailmatches") = messages_ban_ipjailmatches
    ∧ (∀ s : String, s ≠ "head" → s ≠ "tail" → s ≠ "matches" →
        s ≠ "ipmatches" → s ≠ "ipjailmatches" →
        messages_ban_get (some s) = []) := by
  refine ⟨?_, rfl, by decide, by decide, by decide, ?_⟩
  · simp only [composeBan]
    rw [interpolate_append, interpolate_append]
    cases interpolate (dictUpdate aInfo (message_values cfg.jailname w))
        messages_ban_head <;>
      cases interpolate (dictUpdate aInfo (message_values cfg.jailname w))
          (messages_ban_get cfg.«matches») <;>
      cases interpolate (dictUpdate aInfo (message_values cfg.jailname w))
          messages_ban_tail <;>
      rfl
  · intro s h1 h2 h3 h4 h5
    simp [messages_ban_get, h1, h2, h3, h4, h5]

/-- C1, witness: the amended selection evaluated at an unrecognized mode
string other than head and tail. -/
theorem c1_witness : messages_ban_get (some "nomode") = [] :=
  (c1_ban_body_structure cfg0 w0 aInfo0).2.2.2.2.2 "nomode"
    (by decide) (by decide) (by decide) (by decide) (by decide)

/-- C4: in the merge performed by SMTPAction.ban, every event key other
than jailname, hostname and bantime keeps the caller value, while those
three keys always take the context values, layered in after the event
data; the body is interpolated against exactly that merged dict. -/
theorem c4_merge_precedence (cfg : SMTPConfig) (w : World) (aInfo : PyDict)
    (k : String) :
    (k ≠ "jailname" → k ≠ "hostname" → k ≠ "bantime" →
      dictUpdate aInfo (message_values cfg.jailname w) k = aInfo k)
    ∧ dictUpdate aInfo (message_values cfg.jailname w) "jailname" =
        some (PyVal.str cfg.jailname)
    ∧ dictUpdate aInfo (message_values cfg.jailname w) "hostname" =
        some (PyVal.str w.hostname)
    ∧ dictUpdate aInfo (message_values cfg.jailname w) "bantime" =
        some (PyVal.int w.bantime)
    ∧ (composeBan cfg w aInfo).aInfo =
        dictUpdate aInfo (message_values cfg.jailname w) := by
  refine ⟨?_, ?_, ?_, ?_, rfl⟩
  · intro h1 h2 h3
    simp [dictUpdate, message_values, h1, h2, h3]
  · simp [dictUpdate, message_values]
  · simp [dictUpdate, message_values]
  · simp [dictUpdate, message_values]

/-- C4, witness: the event key ip survives the merge with its caller
value at a concrete input. -/
theorem c4_witness :
    dictUpdate aInfo0 (message_values cfg0.jailname w0) "ip" = aInfo0 "ip" :=
  (c4_merge_precedence cfg0 w0 aInfo0 "ip").1
    (by decide) (by decide) (by decide)

/-- C5, counterexample: SMTPAction.ban updates the caller dict in place
on line 214, so after the call the dict is not unchanged: at this
concrete input it gains the key bantime, absent before the call. -/
theorem c5_counterexample :
    (composeBan cfg0 w0 aInfo0).aInfo ≠ aInfo0
    ∧ (composeBan cfg0 w0 aInfo0).aInfo "bantime" = some (PyVal.int 600)
    ∧ aInfo0 "bantime" = none := by
  refine ⟨fun h => ?_, by decide, by decide⟩
  have h2 := congrFun h "bantime"
  exact absurd h2 (by decide)

/-- C5 (amended): after the composition phase of onBan returns, the
caller dict has been updated in place with exactly the three context
keys, jailname, hostname and bantime, taking the context values; every
other entry keeps the caller value.  The dispatcher configuration is a
read-only input of the composition, which returns no modified
configuration. -/
theorem c5_aInfo_mutation (cfg : SMTPConfig) (w : World) (aInfo : PyDict) :
    (composeBan cfg w aInfo).aInfo "jailname" = some (PyVal.str cfg.jailname)
    ∧ (composeBan cfg w aInfo).aInfo "hostname" = some (PyVal.str w.hostname)
    ∧ (composeBan cfg w aInfo).aInfo "bantime" = some (PyVal.int w.bantime)
    ∧ (∀ k, k ≠ "jailname" → k ≠ "hostname" → k ≠ "bantime" →
        (composeBan cfg w aInfo).aInfo k = aInfo k) := by
  refine ⟨?_, ?_, ?_, ?_⟩
  · simp [composeBan, dictUpdate, message_values]
  · simp [composeBan, dictUpdate, message_values]
  · simp [composeBan, dictUpdate, message_values]
  · intro k h1 h2 h3
    simp [composeBan, dictUpdate, message_values, h1, h2, h3]

/-- C5, witness: the event keys ip and failures are untouched by the
in-place update at a concrete input. -/
theorem c5_witness :
    (composeBan cfg0 w0 aInfo0).aInfo "failures" = aInfo0 "failures" :=
  (c5_aInfo_mutation cfg0 w0 aInfo0).2.2.2 "failures"
    (by decide) (by decide) (by decide)

/-- C9: composition of the ban notification is deterministic: two calls
with equal configuration, equal event data and equal values of the
dynamic accessors produce the same subject and the same body. -/
theorem c9_deterministic (cfg cfg2 : SMTPConfig) (w w2 : World)
    (a a2 : PyDict) (hc : cfg = cfg2) (hw : w = w2)
    (ha : ∀ k, a k = a2 k) :
    (composeBan cfg w a).subject = (composeBan cfg2 w2 a2).subject
    ∧ (composeBan cfg w a).body = (composeBan cfg2 w2 a2).body := by
  have hfa : a = a2 := funext ha
  subst hc
  subst hw
  subst hfa
  exact ⟨rfl, rfl⟩

/-- C9, witness: the determinism theorem applied at one concrete input
against itself. -/
theorem c9_witness :
    (composeBan cfg0 w0 aInfo0).subject = (composeBan cfg0 w0 aInfo0).subject
    ∧ (composeBan cfg0 w0 aInfo0).body = (composeBan cfg0 w0 aInfo0).body :=
  c9_deterministic cfg0 cfg0 w0 w0 aInfo0 aInfo0 rfl rfl (fun _ => rfl)

/-- C10: the start and stop compositions have no failure modes: subject
and body interpolate to explicit strings for every configuration and
every accessor state, because the context mapping holds every key the
lifecycle templates mention; the subjects contain the configured jail
name and the resolved host name, and the bodies are the templates with
every placeholder substituted. -/
theorem c10_lifecycle_total (cfg : SMTPConfig) (w : World) :
    composeStart cfg w =
      (some ("[Fail2Ban] " ++ cfg.jailname ++ ": started on " ++ w.hostname),
       some ("Hi,\n\nThe jail " ++ cfg.jailname ++
         " has been started successfully.\n\nRegards,\nFail2Ban"))
    ∧ composeStop cfg w =
      (some ("[Fail2Ban] " ++ cfg.jailname ++ ": stopped on " ++ w.hostname),
       some ("Hi,\n\nThe jail " ++ cfg.jailname ++
         " has been stopped.\n\nRegards,\nFail2Ban"))
    ∧ (∃ pre mid post, (composeStart cfg w).1 =
        some (pre ++ cfg.jailname ++ mid ++ w.hostname ++ post))
    ∧ (∃ pre mid post, (composeStop cfg w).1 =
        some (pre ++ cfg.jailname ++ mid ++ w.hostname ++ post)) := by
  refine ⟨?_, ?_, ⟨"[Fail2Ban] ", ": started on ", "", ?_⟩,
    ⟨"[Fail2Ban] ", ": stopped on ", "", ?_⟩⟩ <;>
    simp [composeStart, composeStop, interpolate, interpPiece,
      subject_start, subject_stop, messages_start, messages_stop,
      message_values, fmtS, String.append_empty, String.append_assoc]

/-- C8: the dynamic context keys are re-resolved at every composition:
the start subject built at an instant embeds the host name of that
instant, the merged ban dict carries the host name and ban time of its
own instant, and when the accessor values change between two events the
later message differs accordingly. -/
theorem c8_dynamic_resolution (cfg : SMTPConfig) (w1 w2 : World)
    (aInfo : PyDict) :
    (composeStart cfg w1).1 =
      some ("[Fail2Ban] " ++ cfg.jailname ++ ": started on " ++ w1.hostname)
    ∧ (composeBan cfg w1 aInfo).aInfo "hostname" =
        some (PyVal.str w1.hostname)
    ∧ (composeBan cfg w1 aInfo).aInfo "bantime" =
        some (PyVal.int w1.bantime)
    ∧ (w1.hostname ≠ w2.hostname →
        (composeStart cfg w1).1 ≠ (composeStart cfg w2).1)
    ∧ (w1.bantime ≠ w2.bantime →
        (composeBan cfg w1 aInfo).aInfo "bantime" ≠
          (composeBan cfg w2 aInfo).aInfo "bantime") := by
  have estart : ∀ v : World, (composeStart cfg v).1 =
      some ("[Fail2Ban] " ++ (cfg.jailname ++
        (": started on " ++ v.hostname))) := by
    intro v
    simp [composeStart, interpolate, interpPiece, subject_start,
      message_values, fmtS, String.append_empty, String.append_assoc]
  refine ⟨?_, ?_, ?_, ?_, ?_⟩
  · rw [estart w1]
    simp [String.append_assoc]
  · simp [composeBan, dictUpdate, message_values]
  · simp [composeBan, dictUpdate, message_values]
  · intro hne heq
    rw [estart w1, estart w2] at heq
    have h3 := Option.some.inj heq
    have h4 := str_append_cancel_left _ _ _ h3
    have h5 := str_append_cancel_left _ _ _ h4
    have h6 := str_append_cancel_left _ _ _ h5
    exact hne h6
  · intro hne heq
    simp [composeBan, dictUpdate, message_values] at heq
    exact hne heq

/-- C8, witness: at two concrete instants with different accessor values
the start subject and the merged ban time differ. -/
theorem c8_witness :
    (composeStart cfg0 w0).1 ≠ (composeStart cfg0 wAlt).1
    ∧ (composeBan cfg0 w0 aInfo0).aInfo "bantime" ≠
        (composeBan cfg0 wAlt aInfo0).aInfo "bantime" :=
  ⟨(c8_dynamic_resolution cfg0 w0 wAlt aInfo0).2.2.2.1 (by decide),
   (c8_dynamic_resolution cfg0 w0 wAlt aInfo0).2.2.2.2 (by decide)⟩

/-- Fixture: a fully successful session in which the relay refuses one
of the recipients. -/
def bOk : SMTPBehavior :=
  { connect := StepResult.ok (220, "ready"), login := StepResult.ok (),
    sendmail := StepResult.ok ["userb@example.com"],
    quit := StepResult.ok (221, "bye") }

/-- Fixture: the configuration with two recipients. -/
def cfg3 : SMTPConfig :=
  { cfg0 with toaddr := "usera@example.com, userb@example.com" }

/-- Fixture: connect raises SMTPConnectError; quit on the never-opened
session raises SMTPServerDisconnected. -/
def bConnFail : SMTPBehavior :=
  { connect := StepResult.exc SMTPExc.connectError,
    login := StepResult.ok (), sendmail := StepResult.ok [],
    quit := StepResult.exc SMTPExc.serverDisconnected }

/-- Fixture: successful session whose quit raises an SMTPException other
than SMTPServerDisconnected. -/
def bQuitFail : SMTPBehavior :=
  { bOk with quit := StepResult.exc SMTPExc.otherSMTP }

/-- Fixture: successful session whose quit raises
SMTPServerDisconnected. -/
def bQuitDisc : SMTPBehavior :=
  { bOk with quit := StepResult.exc SMTPExc.serverDisconnected }

/-- C2: on every exit path of _sendMessage the finally block runs and
quit is attempted; a quit failure of class SMTPServerDisconnected is
swallowed, leaving the pending outcome of the protocol phase as the
result; a quit failure of any other class propagates to the caller in
place of the pending outcome. -/
theorem c2_teardown (cfg : SMTPConfig) (subject : String) (b : SMTPBehavior) :
    (sendMessage cfg subject b).quitAttempted = true
    ∧ (b.quit = StepResult.exc SMTPExc.serverDisconnected →
        (sendMessage cfg subject b).result =
          (sendBody cfg subject b).result.map
            (fun _ => (none : Option (List String))))
    ∧ (∀ e, b.quit = StepResult.exc e → e ≠ SMTPExc.serverDisconnected →
        (sendMessage cfg subject b).result = Except.error e) := by
  refine ⟨?_, ?_, ?_⟩
  · cases hq : b.quit with
    | ok qr => simp [sendMessage, hq]
    | exc e => cases e <;> simp [sendMessage, hq]
  · intro hq
    simp [sendMessage, hq]
  · intro e hq hne
    cases e with
    | serverDisconnected => exact absurd rfl hne
    | connectError => simp [sendMessage, hq]
    | authError => simp [sendMessage, hq]
    | otherSMTP => simp [sendMessage, hq]

/-- C2, witness: at a concrete successful session, a quit failure of a
class other than SMTPServerDisconnected propagates, and a
SMTPServerDisconnected quit failure is swallowed. -/
theorem c2_witness :
    (sendMessage cfg0 "subject" bQuitFail).result =
      Except.error SMTPExc.otherSMTP
    ∧ (sendMessage cfg0 "subject" bQuitDisc).result =
        (sendBody cfg0 "subject" bQuitDisc).result.map (fun _ => none) :=
  ⟨(c2_teardown cfg0 "subject" bQuitFail).2.2 SMTPExc.otherSMTP rfl
      (by decide),
   (c2_teardown cfg0 "subject" bQuitDisc).2.1 rfl⟩

/-- C6: when connect raises SMTPConnectError, _sendMessage logs the
error naming the host and re-raises it to the caller, and the teardown
attempt on the already-disconnected session does not replace it with a
second failure. -/
theorem c6_connect_error (cfg : SMTPConfig) (subject : String)
    (b : SMTPBehavior)
    (hc : b.connect = StepResult.exc SMTPExc.connectError)
    (hq : b.quit = StepResult.exc SMTPExc.serverDisconnected) :
    (sendMessage cfg subject b).result = Except.error SMTPExc.connectError
    ∧ LogEntry.errorConnect cfg.host ∈ (sendMessage cfg subject b).log
    ∧ (sendMessage cfg subject b).quitAttempted = true := by
  refine ⟨?_, ?_, ?_⟩ <;>
    simp [sendMessage, sendBody, hc, hq, handlerLog, Except.map]

/-- C6, witness: the connect-failure theorem at a concrete behaviour. -/
theorem c6_witness :
    (sendMessage cfg0 "subject" bConnFail).result =
      Except.error SMTPExc.connectError
    ∧ LogEntry.errorConnect cfg0.host ∈
        (sendMessage cfg0 "subject" bConnFail).log :=
  ⟨(c6_connect_error cfg0 "subject" bConnFail rfl rfl).1,
   (c6_connect_error cfg0 "subject" bConnFail rfl rfl).2.1⟩

/-- C3, counterexample: when the relay rejects one of two recipients the
call completes without raising and logs the rejection as a warning, but
the Python function has no return statement: its value is None, not the
list of rejected addresses the claim describes. -/
theorem c3_counterexample :
    bOk.sendmail = StepResult.ok ["userb@example.com"]
    ∧ (sendMessage cfg3 "subject3" bOk).result = Except.ok none
    ∧ (sendMessage cfg3 "subject3" bOk).result ≠
        Except.ok (some ["userb@example.com"])
    ∧ LogEntry.warnFailed cfg3.toaddr ["userb@example.com"] ∈
        (sendMessage cfg3 "subject3" bOk).log := by
  refine ⟨rfl, by decide, by decide, by decide⟩

/-- C3 (amended): when the session is accepted and the relay rejects a
subset of the recipients obtained by splitting the configured recipient
string on comma-space, _sendMessage does not raise and the call is
reported as success: the function returns None, the rejected addresses
appear in a warning log line, and the successful send is logged. -/
theorem c3_partial_rejection (cfg : SMTPConfig) (subject : String)
    (b : SMTPBehavior) (cr : Int × String) (failed : List String)
    (hc : b.connect = StepResult.ok cr)
    (hl : (truthy cfg.user && truthy cfg.password) = true →
      b.login = StepResult.ok ())
    (hs : b.sendmail = StepResult.ok failed)
    (_hsub : ∀ r ∈ failed, r ∈ pySplitCommaSpace cfg.toaddr)
    (hq : (∃ qr, b.quit = StepResult.ok qr) ∨
      b.quit = StepResult.exc SMTPExc.serverDisconnected) :
    (sendMessage cfg subject b).result = Except.ok none
    ∧ (sendMessage cfg subject b).sentTo =
        some (pySplitCommaSpace cfg.toaddr)
    ∧ (failed ≠ [] →
        LogEntry.warnFailed cfg.toaddr failed ∈
          (sendMessage cfg subject b).log)
    ∧ LogEntry.debugSent subject ∈ (sendMessage cfg subject b).log := by
  have hbody : sendBody cfg subject b =
      { result := Except.ok (),
        log := [LogEntry.debugConnected cfg.host cr.1 cr.2] ++
          (if failed.isEmpty then []
           else [LogEntry.warnFailed cfg.toaddr failed]) ++
          [LogEntry.debugSent subject],
        loginAttempted := truthy cfg.user && truthy cfg.password,
        sentTo := some (pySplitCommaSpace cfg.toaddr) } := by
    cases hd : (truthy cfg.user && truthy cfg.password) with
    | true => simp [sendBody, hc, hd, hl hd, hs]
    | false => simp [sendBody, hc, hd, hs]
  rcases hq with ⟨qr, hqr⟩ | hqd
  · refine ⟨by simp [sendMessage, hbody, hqr, Except.map],
      by simp [sendMessage, hbody, hqr], ?_, ?_⟩
    · intro hne
      cases hfe : failed.isEmpty with
      | true => exact absurd (by simpa using hfe) hne
      | false => simp [sendMessage, hbody, hqr, hfe]
    · cases hfe : failed.isEmpty <;> simp [sendMessage, hbody, hqr, hfe]
  · refine ⟨by simp [sendMessage, hbody, hqd, Except.map],
      by simp [sendMessage, hbody, hqd], ?_, ?_⟩
    · intro hne
      cases hfe : failed.isEmpty with
      | true => exact absurd (by simpa using hfe) hne
      | false => simp [sendMessage, hbody, hqd, hfe]
    · cases hfe : failed.isEmpty <;> simp [sendMessage, hbody, hqd, hfe]

/-- C3, witness: the amended theorem at the concrete two-recipient
session in which the relay rejects one address. -/
theorem c3_witness :
    (sendMessage cfg3 "subject3" bOk).result = Except.ok none
    ∧ LogEntry.debugSent "subject3" ∈ (sendMessage cfg3 "subject3" bOk).log :=
  have h := c3_partial_rejection cfg3 "subject3" bOk (220, "ready")
    ["userb@example.com"] rfl (fun hd => absurd hd (by decide)) rfl
    (by decide) (Or.inl ⟨(221, "bye"), rfl⟩)
  ⟨h.1, h.2.2.2⟩

/-- Login is reached exactly when connect succeeded and both credentials
are truthy, whatever the later steps do. -/
theorem sendBody_loginAttempted (cfg : SMTPConfig) (subject : String)
    (b : SMTPBehavior) :
    (sendBody cfg subject b).loginAttempted =
      (match b.connect with
       | StepResult.ok _ => truthy cfg.user && truthy cfg.password
       | StepResult.exc _ => false) := by
  cases hc : b.connect with
  | exc e => simp [sendBody, hc]
  | ok cr =>
    cases hd : (truthy cfg.user && truthy cfg.password) with
    | false => cases hsm : b.sendmail <;> simp [sendBody, hc, hd, hsm]
    | true =>
      cases hlg : b.login with
      | ok u => cases hsm : b.sendmail <;> simp [sendBody, hc, hd, hlg, hsm]
      | exc e2 => simp [sendBody, hc, hd, hlg]

/-- When login is skipped, the protocol phase can only terminate with an
exception raised by connect or sendmail, so an authentication error
cannot be its pending outcome unless one of those raised it. -/
theorem sendBody_result_noauth (cfg : SMTPConfig) (subject : String)
    (b : SMTPBehavior)
    (hd : (truthy cfg.user && truthy cfg.password) = false)
    (h1 : b.connect ≠ StepResult.exc SMTPExc.authError)
    (h2 : b.sendmail ≠ StepResult.exc SMTPExc.authError) :
    (sendBody cfg subject b).result ≠ Except.error SMTPExc.authError := by
  cases hc : b.connect with
  | exc e =>
    have hr : (sendBody cfg subject b).result = Except.error e := by
      simp [sendBody, hc]
    rw [hr]
    intro hcontra
    injection hcontra with he
    exact h1 (by rw [hc, he])
  | ok cr =>
    cases hsm : b.sendmail with
    | exc e =>
      have hr : (sendBody cfg subject b).result = Except.error e := by
        simp [sendBody, hc, hd, hsm]
      rw [hr]
      intro hcontra
      injection hcontra with he
      exact h2 (by rw [hsm, he])
    | ok failed =>
      have hr : (sendBody cfg subject b).result = Except.ok () := by
        simp [sendBody, hc, hd, hsm]
      rw [hr]
      intro hcontra
      exact Except.noConfusion hcontra

/-- An authentication error surfacing from _sendMessage originates in
the protocol phase or in the quit call of the finally block. -/
theorem sendMessage_auth_source (cfg : SMTPConfig) (subject : String)
    (b : SMTPBehavior)
    (hcontra : (sendMessage cfg subject b).result =
      Except.error SMTPExc.authError) :
    (sendBody cfg subject b).result = Except.error SMTPExc.authError
    ∨ b.quit = StepResult.exc SMTPExc.authError := by
  cases hq : b.quit with
  | ok qr =>
    left
    have hr : (sendMessage cfg subject b).result =
        (sendBody cfg subject b).result.map
          (fun _ => (none : Option (List String))) := by
      simp [sendMessage, hq]
    rw [hr] at hcontra
    cases hres : (sendBody cfg subject b).result with
    | ok u => simp [hres, Except.map] at hcontra
    | error e =>
      simp [hres, Except.map] at hcontra
      exact congrArg Except.error hcontra
  | exc e2 =>
    cases e2 with
    | serverDisconnected =>
      left
      have hr : (sendMessage cfg subject b).result =
          (sendBody cfg subject b).result.map
            (fun _ => (none : Option (List String))) := by
        simp [sendMessage, hq]
      rw [hr] at hcontra
      cases hres : (sendBody cfg subject b).result with
      | ok u => simp [hres, Except.map] at hcontra
      | error e =>
        simp [hres, Except.map] at hcontra
        exact congrArg Except.error hcontra
    | authError => exact Or.inr rfl
    | connectError =>
      have hr : (sendMessage cfg subject b).result =
          Except.error SMTPExc.connectError := by
        simp [sendMessage, hq]
      rw [hr] at hcontra
      injection hcontra with he
      exact SMTPExc.noConfusion he
    | otherSMTP =>
      have hr : (sendMessage cfg subject b).result =
          Except.error SMTPExc.otherSMTP := by
        simp [sendMessage, hq]
      rw [hr] at hcontra
      injection hcontra with he
      exact SMTPExc.noConfusion he

/-- C7: login is attempted exactly when the session opened and both the
user and the password options are truthy; when they are not both truthy
the login call is skipped, and since neither connect nor sendmail nor
quit raises an authentication error, none can reach the caller. -/
theorem c7_auth_iff (cfg : SMTPConfig) (subject : String) (b : SMTPBehavior) :
    ((sendMessage cfg subject b).loginAttempted = true ↔
      ((∃ cr, b.connect = StepResult.ok cr)
        ∧ truthy cfg.user = true ∧ truthy cfg.password = true))
    ∧ (¬(truthy cfg.user = true ∧ truthy cfg.password = true) →
        b.connect ≠ StepResult.exc SMTPExc.authError →
        b.sendmail ≠ StepResult.exc SMTPExc.authError →
        b.quit ≠ StepResult.exc SMTPExc.authError →
        (sendMessage cfg subject b).result ≠
          Except.error SMTPExc.authError) := by
  have hLA : (sendMessage cfg subject b).loginAttempted =
      (sendBody cfg subject b).loginAttempted := by
    cases hq : b.quit with
    | ok qr => simp [sendMessage, hq]
    | exc e => cases e <;> simp [sendMessage, hq]
  constructor
  · rw [hLA, sendBody_loginAttempted]
    cases hc : b.connect with
    | exc e => simp
    | ok cr => simp [Bool.and_eq_true]
  · intro hnot h1 h2 h3 hcontra
    have hd : (truthy cfg.user && truthy cfg.password) = false := by
      cases hu : truthy cfg.user <;> cases hp : truthy cfg.password <;>
        simp_all
    rcases sendMessage_auth_source cfg subject b hcontra with hb | hqa
    · exact sendBody_result_noauth cfg subject b hd h1 h2 hb
    · exact h3 hqa

/-- Fixture: user configured without a password. -/
def cfgHalf : SMTPConfig := { cfg0 with user := some "alice" }

/-- C7, witness: with only the user option set and a session that
succeeds, login is not attempted and the result is not an
authentication error. -/
theorem c7_witness :
    ((sendMessage cfgHalf "subject7" bOk).loginAttempted = true → False)
    ∧ (sendMessage cfgHalf "subject7" bOk).result ≠
        Except.error SMTPExc.authError :=
  ⟨fun hx =>
    absurd ((c7_auth_iff cfgHalf "subject7" bOk).1.mp hx).2.2 (by decide),
   (c7_auth_iff cfgHalf "subject7" bOk).2 (by decide) (by decide)
     (by decide) (by decide)⟩
